import Mathlib

/-!
Verification of the Vulkan swapchain manager
(`filament/backend/src/vulkan/VulkanSwapChain.h`).

The header declares the state of `VulkanSwapChain` (`mColors`, `mDepth`,
`mExtent`, `mCurrentSwapIndex`, `mAcquired`, `mIsFirstRenderPass`,
`mHeadless`) and gives the bodies of the inline accessors
`getCurrentColor`, `getDepth`, `isFirstRenderPass`, `markFirstRenderPass`
and `getExtent`.  The bodies of the constructor, `acquire`, `present` and
the private `update` are not part of the shown sources; they are modelled
from the specification (sections 4.1, 4.3 and 7 of the spec) and marked
as such below.
-/

namespace VulkanSwapChainModel

/-- `VkExtent2D`: a width/height pair in pixels. -/
structure VkExtent2D where
  width : Nat
  height : Nat
deriving DecidableEq

/-- An opaque GPU texture handle (`std::shared_ptr<VulkanTexture>` in the
source).  Modelled as a (generation, slot) pair so that images minted by
distinct swapchain generations are distinct handles. -/
structure TexHandle where
  gen : Nat
  slot : Nat
deriving DecidableEq

/-- The state of a `VulkanSwapChain`, with the fields declared in
`VulkanSwapChain.h` (lines 72-87).  External collaborator references
(`mPlatform`, `mCommands`, `mAllocator`, `mStagePool`, `mImageReady`)
carry no swapchain-observable state and are omitted.  `mGeneration` is
model bookkeeping counting recreations; it is used only to mint fresh
texture handles on recreation. -/
structure VulkanSwapChain where
  mHeadless : Bool
  mColors : List TexHandle
  mDepth : TexHandle
  mExtent : VkExtent2D
  mCurrentSwapIndex : Nat
  mAcquired : Bool
  mIsFirstRenderPass : Bool
  mGeneration : Nat
deriving DecidableEq

/-- `getCurrentColor` (header line 49-51): `return mColors[mCurrentSwapIndex];`
— an unchecked element access, modelled with a default value out of range. -/
def getCurrentColor (s : VulkanSwapChain) : TexHandle :=
  s.mColors.getD s.mCurrentSwapIndex ⟨0, 0⟩

/-- `getDepth` (header line 53-55): `return mDepth;` -/
def getDepth (s : VulkanSwapChain) : TexHandle :=
  s.mDepth

/-- `isFirstRenderPass` (header line 57-59): `return mIsFirstRenderPass;` -/
def isFirstRenderPass (s : VulkanSwapChain) : Bool :=
  s.mIsFirstRenderPass

/-- `markFirstRenderPass` (header line 61-63): `mIsFirstRenderPass = false;` -/
def markFirstRenderPass (s : VulkanSwapChain) : VulkanSwapChain :=
  { s with mIsFirstRenderPass := false }

/-- `getExtent` (header line 65-67): `return mExtent;` -/
def getExtent (s : VulkanSwapChain) : VkExtent2D :=
  s.mExtent

/-- Modelled from the spec: the body of the `VulkanSwapChain` constructor is
not in the shown sources.  Spec section 3: the swapchain is constructed with
a target extent and a headless flag, the buffer count is chosen by the
presentation backend, `firstPassFlag` is "reset to true at construction",
and no image is acquired initially.  Generation 0 mints the initial color
images and the single shared depth image. -/
def mkSwapChain (headless : Bool) (bufferCount : Nat) (extent : VkExtent2D) :
    VulkanSwapChain :=
  { mHeadless := headless
    mColors := (List.range bufferCount).map (fun i => ⟨0, i⟩)
    mDepth := ⟨0, bufferCount⟩
    mExtent := extent
    mCurrentSwapIndex := 0
    mAcquired := false
    mIsFirstRenderPass := true
    mGeneration := 0 }

/-- Modelled from the spec: the body of the private `VulkanSwapChain::update`
(recreation) is not in the shown sources.  Spec section 4.1: the manager
"tears down and recreates the full image set at the new extent" and "resets
`firstPassFlag` to true"; section 3: the depth image is "recreated only on
resize".  The next generation mints fresh color handles and a fresh depth
handle; the buffer count is preserved. -/
def update (s : VulkanSwapChain) (newExtent : VkExtent2D) : VulkanSwapChain :=
  let g := s.mGeneration + 1
  let n := s.mColors.length
  { s with
    mColors := (List.range n).map (fun i => ⟨g, i⟩)
    mDepth := ⟨g, n⟩
    mExtent := newExtent
    mIsFirstRenderPass := true
    mGeneration := g }

/-- A response of the presentation backend to `acquireNextImage` (spec
section 4.3): either the next available image index, or `OutOfDate`
carrying the backend-reported new surface extent. -/
inductive BackendResp where
  | image (idx : Nat)
  | outOfDate (newExtent : VkExtent2D)
deriving DecidableEq

/-- Outcome of `acquire`: either a fatal precondition/backend failure that
aborts execution with a diagnostic (spec section 7), or the new swapchain
state together with the `resized` output flag. -/
inductive AcquireOutcome where
  | fatal
  | ok (s : VulkanSwapChain) (resized : Bool)
deriving DecidableEq

/-- Modelled from the spec: the second acquisition attempt performed after a
recreation.  Spec section 4.1 has `acquire` retry acquisition exactly once
after recreating; the open question in section 9 resolves a second
consecutive out-of-date failure as fatal rather than looping. -/
def retryAcquire (s : VulkanSwapChain) (retry : BackendResp) : AcquireOutcome :=
  match retry with
  | .image idx =>
      .ok { s with mCurrentSwapIndex := idx, mAcquired := true } true
  | .outOfDate _ => .fatal

/-- Modelled from the spec: the body of `VulkanSwapChain::acquire` is not in
the shown sources.  Spec section 4.1: calling acquire while already
`Acquired` is a fatal precondition violation; in headless mode acquire
"simply advances `currentIndex` modulo buffer count with no backend call";
in surface mode, if the backend reports the surface outdated or the extent
has changed, the manager recreates the image set at the new extent, sets
`resized = true`, resets the first-pass flag, and retries acquisition once.
`surfaceExtent` is the platform-reported current extent (an explicit
extent-change request when it differs from `mExtent`); `resp` and `retry`
are the backend's responses to the first and the retried acquisition. -/
def acquire (s : VulkanSwapChain) (surfaceExtent : VkExtent2D)
    (resp retry : BackendResp) : AcquireOutcome :=
  if s.mAcquired then
    .fatal
  else if s.mHeadless then
    if surfaceExtent ≠ s.mExtent then
      let s1 := update s surfaceExtent
      .ok { s1 with
            mCurrentSwapIndex := (s1.mCurrentSwapIndex + 1) % s1.mColors.length
            mAcquired := true } true
    else
      .ok { s with
            mCurrentSwapIndex := (s.mCurrentSwapIndex + 1) % s.mColors.length
            mAcquired := true } false
  else if surfaceExtent ≠ s.mExtent then
    retryAcquire (update s surfaceExtent) retry
  else
    match resp with
    | .image idx =>
        .ok { s with mCurrentSwapIndex := idx, mAcquired := true } false
    | .outOfDate newExtent =>
        retryAcquire (update s newExtent) retry

/-- Outcome of `present`: fatal precondition violation, or the new state. -/
inductive PresentOutcome where
  | fatal
  | ok (s : VulkanSwapChain)
deriving DecidableEq

/-- Modelled from the spec: the body of `VulkanSwapChain::present` is not in
the shown sources.  Spec section 4.1: present must only be called while
`Acquired` (calling it otherwise is a fatal precondition violation) and
transitions back to `Idle`. -/
def present (s : VulkanSwapChain) : PresentOutcome :=
  if s.mAcquired then
    .ok { s with mAcquired := false }
  else
    .fatal

/-- One operation of the external interface driven by the render loop. -/
inductive Op where
  | opAcquire (surfaceExtent : VkExtent2D) (resp retry : BackendResp)
  | opPresent
  | opMark
deriving DecidableEq

/-- One step of the swapchain state machine; `none` models a fatal abort. -/
def step (s : VulkanSwapChain) : Op → Option VulkanSwapChain
  | .opAcquire e r r' =>
      match acquire s e r r' with
      | .ok s' _ => some s'
      | .fatal => none
  | .opPresent =>
      match present s with
      | .ok s' => some s'
      | .fatal => none
  | .opMark => some (markFirstRenderPass s)

/-- Run a sequence of operations from a state. -/
def run (s : VulkanSwapChain) : List Op → Option VulkanSwapChain
  | [] => some s
  | op :: ops =>
      match step s op with
      | some s' => run s' ops
      | none => none

/-- Backend contract (spec section 4.3): an image index delivered by the
backend is a valid index into the surface images of the current
generation (buffer count `n`). -/
def respValid (n : Nat) : BackendResp → Bool
  | .image idx => idx < n
  | .outOfDate _ => true

/-- An operation whose backend responses respect the backend contract. -/
def opValid (n : Nat) : Op → Bool
  | .opAcquire _ r r' => respValid n r && respValid n r'
  | .opPresent => true
  | .opMark => true

/-- The structural invariant of a swapchain with buffer count `n`: the color
image list has length `n`, the current index is in bounds, and all live
handles were minted by a generation no newer than the current one. -/
def goodState (n : Nat) (s : VulkanSwapChain) : Prop :=
  s.mColors.length = n ∧ s.mCurrentSwapIndex < n ∧
  (∀ t ∈ s.mColors, t.gen ≤ s.mGeneration) ∧ s.mDepth.gen ≤ s.mGeneration

instance (n : Nat) (s : VulkanSwapChain) : Decidable (goodState n s) := by
  unfold goodState
  infer_instance

/-- A state reachable from construction with buffer count `n` by operations
whose backend responses respect the backend contract. -/
def Reachable (n : Nat) (s : VulkanSwapChain) : Prop :=
  ∃ headless extent ops, (∀ op ∈ ops, opValid n op = true) ∧
    run (mkSwapChain headless n extent) ops = some s

/-- The state produced by a recreation at `newExtent` followed by a
successful retried acquisition of index `idx`. -/
def recreated (s : VulkanSwapChain) (newExtent : VkExtent2D) (idx : Nat) :
    VulkanSwapChain :=
  { update s newExtent with mCurrentSwapIndex := idx, mAcquired := true }

/-! ### Sample states for witnesses -/

/-- A concrete state in the `Acquired` phase (buffer count 2). -/
def sampleAcquired : VulkanSwapChain :=
  { mHeadless := true
    mColors := [⟨0, 0⟩, ⟨0, 1⟩]
    mDepth := ⟨0, 2⟩
    mExtent := ⟨800, 600⟩
    mCurrentSwapIndex := 1
    mAcquired := true
    mIsFirstRenderPass := true
    mGeneration := 0 }

/-- A concrete state in the `Idle` phase (buffer count 2). -/
def sampleIdle : VulkanSwapChain :=
  { sampleAcquired with mAcquired := false }

/-- A concrete surface-backed (non-headless) state in the `Idle` phase. -/
def sampleSurfaceIdle : VulkanSwapChain :=
  { sampleIdle with mHeadless := false }

/-- The state reached from `sampleIdle` by a headless acquire at the same
extent: the index advances from 1 to (1+1) mod 2 = 0. -/
def sampleAcquired0 : VulkanSwapChain :=
  { sampleAcquired with mCurrentSwapIndex := 0 }

/-! ### Helper lemmas -/

theorem acquire_fatal_of_acquired (s : VulkanSwapChain) (e : VkExtent2D)
    (r r' : BackendResp) (h : s.mAcquired = true) :
    acquire s e r r' = .fatal := by
  simp [acquire, h]

theorem retryAcquire_ok_dest (s s' : VulkanSwapChain) (r : BackendResp) (b : Bool)
    (h : retryAcquire s r = .ok s' b) :
    ∃ idx, r = .image idx ∧ b = true ∧
      s' = { s with mCurrentSwapIndex := idx, mAcquired := true } := by
  cases r with
  | image idx =>
      refine ⟨idx, rfl, ?_, ?_⟩ <;>
        · simp only [retryAcquire, AcquireOutcome.ok.injEq] at h
          tauto
  | outOfDate newExtent => simp [retryAcquire] at h

theorem acquire_ok_dest (s : VulkanSwapChain) (e : VkExtent2D) (r r' : BackendResp)
    (s' : VulkanSwapChain) (b : Bool) (h : acquire s e r r' = .ok s' b) :
    s.mAcquired = false ∧ s'.mAcquired = true := by
  cases hb : s.mAcquired with
  | true => rw [acquire_fatal_of_acquired s e r r' hb] at h; exact absurd h (by simp)
  | false =>
      refine ⟨rfl, ?_⟩
      unfold acquire at h
      rw [hb] at h
      simp only [Bool.false_eq_true, if_false] at h
      split at h
      · split at h
        · cases h; rfl
        · cases h; rfl
      · split at h
        · obtain ⟨idx, _, _, rfl⟩ := retryAcquire_ok_dest _ _ _ _ h; rfl
        · split at h
          · cases h; rfl
          · obtain ⟨idx, _, _, rfl⟩ := retryAcquire_ok_dest _ _ _ _ h; rfl

theorem present_ok_dest (s s' : VulkanSwapChain) (h : present s = .ok s') :
    s.mAcquired = true ∧ s' = { s with mAcquired := false } := by
  cases hb : s.mAcquired with
  | true =>
      refine ⟨rfl, ?_⟩
      simp only [present, hb, if_true] at h
      cases h; rfl
  | false => simp [present, hb] at h

theorem goodState_mk (headless : Bool) (n : Nat) (e : VkExtent2D) (hn : 1 ≤ n) :
    goodState n (mkSwapChain headless n e) := by
  refine ⟨by simp [mkSwapChain], hn, ?_, by simp [mkSwapChain]⟩
  intro t ht
  simp only [mkSwapChain, List.mem_map, List.mem_range] at ht
  obtain ⟨i, _, rfl⟩ := ht
  simp [mkSwapChain]

theorem goodState_update (n : Nat) (s : VulkanSwapChain) (e : VkExtent2D)
    (h : goodState n s) : goodState n (update s e) := by
  obtain ⟨h1, h2, h3, h4⟩ := h
  refine ⟨by simp [update, h1], by simpa [update] using h2, ?_, by simp [update]⟩
  intro t ht
  simp only [update, List.mem_map, List.mem_range] at ht
  obtain ⟨i, _, rfl⟩ := ht
  simp [update]

theorem update_length (s : VulkanSwapChain) (e : VkExtent2D) :
    (update s e).mColors.length = s.mColors.length := by
  simp [update]

theorem goodState_acquire (n : Nat) (hn : 1 ≤ n) (s : VulkanSwapChain)
    (e : VkExtent2D) (r r' : BackendResp) (s' : VulkanSwapChain) (b : Bool)
    (hr : respValid n r = true) (hr' : respValid n r' = true)
    (h : goodState n s) (ha : acquire s e r r' = .ok s' b) : goodState n s' := by
  have hnpos : 0 < n := hn
  obtain ⟨h1, h2, h3, h4⟩ := h
  cases hb : s.mAcquired with
  | true => rw [acquire_fatal_of_acquired s e r r' hb] at ha; exact absurd ha (by simp)
  | false =>
      unfold acquire at ha
      rw [hb] at ha
      simp only [Bool.false_eq_true, if_false] at ha
      split at ha
      · split at ha
        · cases ha
          obtain ⟨g1, g2, g3, g4⟩ := goodState_update n s e ⟨h1, h2, h3, h4⟩
          exact ⟨g1, by rw [g1]; exact Nat.mod_lt _ hnpos, g3, g4⟩
        · cases ha
          exact ⟨h1, by rw [h1]; exact Nat.mod_lt _ hnpos, h3, h4⟩
      · split at ha
        · obtain ⟨idx, rfl, _, rfl⟩ := retryAcquire_ok_dest _ _ _ _ ha
          obtain ⟨g1, g2, g3, g4⟩ := goodState_update n s e ⟨h1, h2, h3, h4⟩
          simp only [respValid, decide_eq_true_eq] at hr'
          exact ⟨g1, hr', g3, g4⟩
        · split at ha
          · cases ha
            simp only [respValid, decide_eq_true_eq] at hr
            exact ⟨h1, hr, h3, h4⟩
          · obtain ⟨idx, rfl, _, rfl⟩ := retryAcquire_ok_dest _ _ _ _ ha
            rename_i newExtent _
            obtain ⟨g1, g2, g3, g4⟩ := goodState_update n s newExtent ⟨h1, h2, h3, h4⟩
            simp only [respValid, decide_eq_true_eq] at hr'
            exact ⟨g1, hr', g3, g4⟩

theorem goodState_step (n : Nat) (hn : 1 ≤ n) (s s' : VulkanSwapChain) (op : Op)
    (hop : opValid n op = true) (h : goodState n s) (hs : step s op = some s') :
    goodState n s' := by
  cases op with
  | opAcquire e r r' =>
      simp only [opValid, Bool.and_eq_true] at hop
      simp only [step] at hs
      split at hs
      · cases hs
        exact goodState_acquire n hn s e r r' _ _ hop.1 hop.2 h (by assumption)
      · exact absurd hs (by simp)
  | opPresent =>
      simp only [step] at hs
      split at hs
      · cases hs
        rename_i heq
        obtain ⟨_, rfl⟩ := present_ok_dest _ _ heq
        exact h
      · exact absurd hs (by simp)
  | opMark =>
      simp only [step, markFirstRenderPass] at hs
      cases hs
      exact h

theorem goodState_run (n : Nat) (hn : 1 ≤ n) (ops : List Op) :
    ∀ s s', (∀ op ∈ ops, opValid n op = true) → goodState n s →
      run s ops = some s' → goodState n s' := by
  induction ops with
  | nil => intro s s' _ h hr; simp only [run] at hr; cases hr; exact h
  | cons op ops ih =>
      intro s s' hval h hr
      simp only [run] at hr
      split at hr
      · rename_i s1 hstep
        exact ih s1 s' (fun o ho => hval o (List.mem_cons_of_mem _ ho))
          (goodState_step n hn s s1 op (hval op (List.mem_cons_self _ _)) h hstep) hr
      · exact absurd hr (by simp)

theorem goodState_reachable (n : Nat) (hn : 1 ≤ n) (s : VulkanSwapChain)
    (h : Reachable n s) : goodState n s := by
  obtain ⟨headless, extent, ops, hval, hrun⟩ := h
  exact goodState_run n hn ops _ s hval (goodState_mk headless n extent hn) hrun

theorem acquire_headless_same_extent (s : VulkanSwapChain)
    (hacq : s.mAcquired = false) (hhl : s.mHeadless = true)
    (r r' : BackendResp) :
    acquire s s.mExtent r r' =
      .ok { s with
            mCurrentSwapIndex := (s.mCurrentSwapIndex + 1) % s.mColors.length
            mAcquired := true } false := by
  simp [acquire, hacq, hhl]

theorem acquire_headless_resize (s : VulkanSwapChain) (e : VkExtent2D)
    (hacq : s.mAcquired = false) (hhl : s.mHeadless = true)
    (he : e ≠ s.mExtent) (r r' : BackendResp) :
    acquire s e r r' =
      .ok { update s e with
            mCurrentSwapIndex := (s.mCurrentSwapIndex + 1) % s.mColors.length
            mAcquired := true } true := by
  simp [acquire, hacq, hhl, he, update]

theorem acquire_surface_same_extent_image (s : VulkanSwapChain) (idx : Nat)
    (hacq : s.mAcquired = false) (hhl : s.mHeadless = false)
    (r' : BackendResp) :
    acquire s s.mExtent (.image idx) r' =
      .ok { s with mCurrentSwapIndex := idx, mAcquired := true } false := by
  simp [acquire, hacq, hhl]

theorem acquire_surface_outOfDate (s : VulkanSwapChain)
    (newExtent : VkExtent2D) (idx : Nat)
    (hacq : s.mAcquired = false) (hhl : s.mHeadless = false) :
    acquire s s.mExtent (.outOfDate newExtent) (.image idx) =
      .ok (recreated s newExtent idx) true := by
  simp [acquire, hacq, hhl, retryAcquire, recreated]

theorem acquire_surface_extent_change (s : VulkanSwapChain) (e : VkExtent2D)
    (idx : Nat) (hacq : s.mAcquired = false) (hhl : s.mHeadless = false)
    (he : e ≠ s.mExtent) (r : BackendResp) :
    acquire s e r (.image idx) = .ok (recreated s e idx) true := by
  simp [acquire, hacq, hhl, he, retryAcquire, recreated]

theorem acquire_surface_outOfDate_twice (s : VulkanSwapChain)
    (newExtent e2 : VkExtent2D)
    (hacq : s.mAcquired = false) (hhl : s.mHeadless = false) :
    acquire s s.mExtent (.outOfDate newExtent) (.outOfDate e2) = .fatal := by
  simp [acquire, hacq, hhl, retryAcquire]

theorem succ_mod_ne_of_two_le (j n : Nat) (hn : 2 ≤ n) :
    (j + 1) % n ≠ j % n := by
  intro h
  have hmod : Nat.ModEq n j (j + 1) := h.symm
  have hdvd : n ∣ 1 := by
    have h2 := (Nat.modEq_iff_dvd' (Nat.le_succ j)).mp hmod
    simpa using h2
  have := Nat.le_of_dvd (by omega) hdvd
  omega

theorem update_depth_ne (s : VulkanSwapChain) (e : VkExtent2D)
    (hg : s.mDepth.gen ≤ s.mGeneration) : (update s e).mDepth ≠ s.mDepth := by
  intro h
  have hgen := congrArg TexHandle.gen h
  simp only [update] at hgen
  omega

/-! ### Claims -/

/-- C1: calling `acquire` while the swapchain is already in the `Acquired`
state (`mAcquired = true`) is a fatal precondition violation: the call
aborts with a diagnostic (outcome `fatal`) for every surface extent and
every pair of backend responses; it never returns a recoverable `ok`. -/
theorem acquire_while_acquired_is_fatal (s : VulkanSwapChain) (e : VkExtent2D)
    (r r' : BackendResp) (h : s.mAcquired = true) :
    acquire s e r r' = .fatal ∧ ∀ s' b, acquire s e r r' ≠ .ok s' b := by
  refine ⟨acquire_fatal_of_acquired s e r r' h, ?_⟩
  intro s' b hc
  rw [acquire_fatal_of_acquired s e r r' h] at hc
  exact absurd hc (by simp)

/-- Witness for C1 at a concrete acquired state. -/
theorem acquire_while_acquired_is_fatal_witness :
    sampleAcquired.mAcquired = true ∧
    acquire sampleAcquired ⟨800, 600⟩ (.image 0) (.image 0) = .fatal :=
  ⟨rfl,
    (acquire_while_acquired_is_fatal sampleAcquired ⟨800, 600⟩
      (.image 0) (.image 0) rfl).1⟩

/-- C5: the `mAcquired` flag is true strictly between a successful `acquire`
and the matching `present`: every successful `acquire` starts from a
non-acquired state and leaves the flag true, every successful `present`
starts from an acquired state and resets the flag to false, and `present`
outside the `Acquired` state is fatal.  These facts hold in every state,
hence along every reachable sequence of operations. -/
theorem acquired_flag_between_acquire_and_present (s : VulkanSwapChain) :
    (∀ e r r' s' b, acquire s e r r' = .ok s' b →
        s.mAcquired = false ∧ s'.mAcquired = true) ∧
    (∀ s', present s = .ok s' → s.mAcquired = true ∧ s'.mAcquired = false) ∧
    (s.mAcquired = false → present s = .fatal) := by
  refine ⟨?_, ?_, ?_⟩
  · intro e r r' s' b h
    exact acquire_ok_dest s e r r' s' b h
  · intro s' h
    obtain ⟨h1, rfl⟩ := present_ok_dest s s' h
    exact ⟨h1, rfl⟩
  · intro h
    simp [present, h]

/-- Witness for C5 at a concrete idle state. -/
theorem acquired_flag_between_acquire_and_present_witness :
    present sampleIdle = .fatal :=
  (acquired_flag_between_acquire_and_present sampleIdle).2.2 rfl

/-- C9: in every state reachable by construction (buffer count `n ≥ 1`) and
any sequence of acquire/present/mark operations whose backend responses
respect the backend contract, `mCurrentSwapIndex` is a valid index into
`mColors`, so the unchecked element access in `getCurrentColor` is always
in bounds. -/
theorem currentSwapIndex_in_bounds (n : Nat) (s : VulkanSwapChain)
    (hn : 1 ≤ n) (h : Reachable n s) :
    s.mCurrentSwapIndex < s.mColors.length := by
  obtain ⟨h1, h2, _, _⟩ := goodState_reachable n hn s h
  rw [h1]
  exact h2

/-- Witness for C9: a two-operation trace (acquire then present) from a
freshly constructed double-buffered headless swapchain. -/
theorem currentSwapIndex_in_bounds_witness :
    Reachable 2 { mkSwapChain true 2 ⟨800, 600⟩ with mCurrentSwapIndex := 1 } ∧
    ({ mkSwapChain true 2 ⟨800, 600⟩ with
        mCurrentSwapIndex := 1 } : VulkanSwapChain).mCurrentSwapIndex <
      ({ mkSwapChain true 2 ⟨800, 600⟩ with
          mCurrentSwapIndex := 1 } : VulkanSwapChain).mColors.length := by
  have hreach :
      Reachable 2 { mkSwapChain true 2 ⟨800, 600⟩ with mCurrentSwapIndex := 1 } :=
    ⟨true, ⟨800, 600⟩,
      [.opAcquire ⟨800, 600⟩ (.image 0) (.image 0), .opPresent],
      by decide, by decide⟩
  exact ⟨hreach, currentSwapIndex_in_bounds 2 _ (by decide) hreach⟩

/-- C6: in the state following any successful `acquire` (the state in which
the caller renders, until the matching `present`), `getCurrentColor` returns
exactly the texture handle stored at position `mCurrentSwapIndex` of the
`mColors` sequence, where `mCurrentSwapIndex` was set by that acquire. -/
theorem getCurrentColor_is_nth_color (n : Nat) (hn : 1 ≤ n)
    (s : VulkanSwapChain) (e : VkExtent2D) (r r' : BackendResp)
    (s' : VulkanSwapChain) (b : Bool)
    (hr : respValid n r = true) (hr' : respValid n r' = true)
    (h : goodState n s) (ha : acquire s e r r' = .ok s' b) :
    ∃ hlt : s'.mCurrentSwapIndex < s'.mColors.length,
      getCurrentColor s' = s'.mColors.get ⟨s'.mCurrentSwapIndex, hlt⟩ := by
  obtain ⟨h1, h2, _, _⟩ := goodState_acquire n hn s e r r' s' b hr hr' h ha
  have hlt : s'.mCurrentSwapIndex < s'.mColors.length := by rw [h1]; exact h2
  refine ⟨hlt, ?_⟩
  rw [getCurrentColor, List.getD_eq_getElem _ _ hlt, List.get_eq_getElem]

/-- Witness for C6: a concrete headless acquire from `sampleIdle`. -/
theorem getCurrentColor_is_nth_color_witness :
    ∃ hlt : sampleAcquired0.mCurrentSwapIndex < sampleAcquired0.mColors.length,
      getCurrentColor sampleAcquired0 =
        sampleAcquired0.mColors.get ⟨sampleAcquired0.mCurrentSwapIndex, hlt⟩ :=
  getCurrentColor_is_nth_color 2 (by decide) sampleIdle ⟨800, 600⟩
    (.image 0) (.image 0) sampleAcquired0 false (by decide) (by decide)
    (by decide) (by decide)

/-- C2: when the backend reports the surface out of date at acquire time, or
the platform reports a changed extent, `acquire` tears down and recreates
the full image set at the new extent (the fresh handles are disjoint from
the old generation's), sets the output flag `resized` to true, resets the
first-render-pass flag to true, and retries acquisition exactly once (a
second consecutive out-of-date failure is fatal rather than retried again);
afterwards `getExtent` returns the new extent and `isFirstRenderPass`
returns true until `markFirstRenderPass` is called. -/
theorem acquire_recreates_on_outdated_or_resize (n : Nat)
    (s : VulkanSwapChain) (h : goodState n s)
    (hacq : s.mAcquired = false) (hhl : s.mHeadless = false)
    (newExtent : VkExtent2D) (idx : Nat) :
    acquire s s.mExtent (.outOfDate newExtent) (.image idx) =
      .ok (recreated s newExtent idx) true ∧
    (∀ r, newExtent ≠ s.mExtent →
        acquire s newExtent r (.image idx) =
          .ok (recreated s newExtent idx) true) ∧
    getExtent (recreated s newExtent idx) = newExtent ∧
    isFirstRenderPass (recreated s newExtent idx) = true ∧
    isFirstRenderPass (markFirstRenderPass (recreated s newExtent idx)) =
      false ∧
    (recreated s newExtent idx).mColors.length = n ∧
    (∀ t ∈ (recreated s newExtent idx).mColors, t ∉ s.mColors) ∧
    (∀ e2, acquire s s.mExtent (.outOfDate newExtent) (.outOfDate e2) =
      .fatal) := by
  obtain ⟨h1, h2, h3, h4⟩ := h
  refine ⟨acquire_surface_outOfDate s newExtent idx hacq hhl,
    fun r he => acquire_surface_extent_change s newExtent idx hacq hhl he r,
    rfl, rfl, rfl, by simp [recreated, update, h1], ?_,
    fun e2 => acquire_surface_outOfDate_twice s newExtent e2 hacq hhl⟩
  intro t ht hmem
  simp only [recreated, update, List.mem_map, List.mem_range] at ht
  obtain ⟨i, _, rfl⟩ := ht
  have hg := h3 _ hmem
  simp only [] at hg
  omega

/-- Witness for C2: an out-of-date report at a concrete surface-backed
idle state, recreating at extent 1024 by 768. -/
theorem acquire_recreates_on_outdated_or_resize_witness :
    acquire sampleSurfaceIdle sampleSurfaceIdle.mExtent
        (.outOfDate ⟨1024, 768⟩) (.image 0) =
      .ok (recreated sampleSurfaceIdle ⟨1024, 768⟩ 0) true :=
  (acquire_recreates_on_outdated_or_resize 2 sampleSurfaceIdle
    (by decide) rfl rfl ⟨1024, 768⟩ 0).1

/-- C3: `acquire` never returns an index of a frame that is still acquired:
a successful acquire requires that no frame be acquired at call time (so two
simultaneously-acquired frames cannot exist), and in the headless
acquire/present/acquire/present cycle the index advances by one modulo the
buffer count each acquire, so with buffer count 2 consecutive acquired
indices alternate and never repeat an unreleased index. -/
theorem no_double_acquisition (s : VulkanSwapChain)
    (hhl : s.mHeadless = true) (hacq : s.mAcquired = false)
    (r1 r1' r2 r2' : BackendResp) :
    (∀ e r r' s' b, acquire s e r r' = .ok s' b → s.mAcquired = false) ∧
    ∃ s1 s2 s3,
      acquire s s.mExtent r1 r1' = .ok s1 false ∧
      s1.mCurrentSwapIndex = (s.mCurrentSwapIndex + 1) % s.mColors.length ∧
      present s1 = .ok s2 ∧
      acquire s2 s.mExtent r2 r2' = .ok s3 false ∧
      s3.mCurrentSwapIndex = (s.mCurrentSwapIndex + 2) % s.mColors.length ∧
      (2 ≤ s.mColors.length →
        s3.mCurrentSwapIndex ≠ s1.mCurrentSwapIndex) := by
  constructor
  · intro e r r' s' b h
    exact (acquire_ok_dest s e r r' s' b h).1
  · refine ⟨{ s with
        mCurrentSwapIndex := (s.mCurrentSwapIndex + 1) % s.mColors.length
        mAcquired := true },
      { s with
        mCurrentSwapIndex := (s.mCurrentSwapIndex + 1) % s.mColors.length
        mAcquired := false },
      { s with
        mCurrentSwapIndex :=
          ((s.mCurrentSwapIndex + 1) % s.mColors.length + 1) % s.mColors.length
        mAcquired := true },
      acquire_headless_same_extent s hacq hhl r1 r1', rfl, ?_, ?_, ?_, ?_⟩
    · rfl
    · exact acquire_headless_same_extent
        { s with
          mCurrentSwapIndex := (s.mCurrentSwapIndex + 1) % s.mColors.length
          mAcquired := false } rfl hhl r2 r2'
    · exact Nat.mod_add_mod (s.mCurrentSwapIndex + 1) s.mColors.length 1
    · intro hn2
      show ((s.mCurrentSwapIndex + 1) % s.mColors.length + 1) %
          s.mColors.length ≠ (s.mCurrentSwapIndex + 1) % s.mColors.length
      rw [Nat.mod_add_mod]
      exact succ_mod_ne_of_two_le (s.mCurrentSwapIndex + 1) s.mColors.length hn2

/-- Witness for C3: the double-buffered headless scenario at extent
1920 by 1080. -/
theorem no_double_acquisition_witness :
    ∃ s1 s2 s3,
      acquire (mkSwapChain true 2 ⟨1920, 1080⟩)
          (mkSwapChain true 2 ⟨1920, 1080⟩).mExtent (.image 0) (.image 0) =
        .ok s1 false ∧
      s1.mCurrentSwapIndex =
        ((mkSwapChain true 2 ⟨1920, 1080⟩).mCurrentSwapIndex + 1) %
          (mkSwapChain true 2 ⟨1920, 1080⟩).mColors.length ∧
      present s1 = .ok s2 ∧
      acquire s2 (mkSwapChain true 2 ⟨1920, 1080⟩).mExtent
          (.image 0) (.image 0) = .ok s3 false ∧
      s3.mCurrentSwapIndex =
        ((mkSwapChain true 2 ⟨1920, 1080⟩).mCurrentSwapIndex + 2) %
          (mkSwapChain true 2 ⟨1920, 1080⟩).mColors.length ∧
      (2 ≤ (mkSwapChain true 2 ⟨1920, 1080⟩).mColors.length →
        s3.mCurrentSwapIndex ≠ s1.mCurrentSwapIndex) :=
  (no_double_acquisition (mkSwapChain true 2 ⟨1920, 1080⟩) rfl rfl
    (.image 0) (.image 0) (.image 0) (.image 0)).2

/-- C4: round trip of the first-render-pass flag from a swapchain
constructed at extent 800 by 600: after acquire, markFirstRenderPass and
present, a second acquire at the unchanged extent leaves
`isFirstRenderPass = false`, while a second acquire with a changed extent
(a resize between the two acquires) yields `isFirstRenderPass = true`;
the flag is per-generation, not per-frame. -/
theorem firstRenderPass_round_trip (headless : Bool) (n : Nat)
    (idx idx2 : Nat) :
    ∃ s1 s2,
      acquire (mkSwapChain headless n ⟨800, 600⟩) ⟨800, 600⟩
          (.image idx) (.image idx) = .ok s1 false ∧
      present (markFirstRenderPass s1) = .ok s2 ∧
      (∃ s3, acquire s2 ⟨800, 600⟩ (.image idx2) (.image idx2) =
          .ok s3 false ∧ isFirstRenderPass s3 = false) ∧
      (∀ e2, e2 ≠ (⟨800, 600⟩ : VkExtent2D) →
        ∃ s3, acquire s2 e2 (.image idx2) (.image idx2) = .ok s3 true ∧
          isFirstRenderPass s3 = true) := by
  cases headless with
  | true =>
      refine ⟨_, _,
        acquire_headless_same_extent (mkSwapChain true n ⟨800, 600⟩)
          rfl rfl (.image idx) (.image idx), rfl, ⟨_,
        acquire_headless_same_extent _ rfl rfl (.image idx2) (.image idx2),
        rfl⟩, ?_⟩
      intro e2 he2
      exact ⟨_, acquire_headless_resize _ e2 rfl rfl he2
        (.image idx2) (.image idx2), rfl⟩
  | false =>
      refine ⟨_, _,
        acquire_surface_same_extent_image (mkSwapChain false n ⟨800, 600⟩)
          idx rfl rfl (.image idx), rfl, ⟨_,
        acquire_surface_same_extent_image _ idx2 rfl rfl (.image idx2),
        rfl⟩, ?_⟩
      intro e2 he2
      exact ⟨_, acquire_surface_extent_change _ e2 idx2 rfl rfl he2
        (.image idx2), rfl⟩

/-- Witness for C4 (the hypotheses of the general statement are only the
inner ones): instantiated at a headless double-buffered swapchain, with the
resize branch discharged at extent 1024 by 768. -/
theorem firstRenderPass_round_trip_witness :
    ∃ s1 s2,
      acquire (mkSwapChain true 2 ⟨800, 600⟩) ⟨800, 600⟩
          (.image 0) (.image 0) = .ok s1 false ∧
      present (markFirstRenderPass s1) = .ok s2 ∧
      (∃ s3, acquire s2 ⟨800, 600⟩ (.image 0) (.image 0) =
          .ok s3 false ∧ isFirstRenderPass s3 = false) ∧
      (∀ e2, e2 ≠ (⟨800, 600⟩ : VkExtent2D) →
        ∃ s3, acquire s2 e2 (.image 0) (.image 0) = .ok s3 true ∧
          isFirstRenderPass s3 = true) :=
  firstRenderPass_round_trip true 2 0 0

/-- C7: in headless mode, `acquire` from the idle state makes no call to the
presentation backend (its result does not depend on the backend responses),
always succeeds, simply advances `mCurrentSwapIndex` modulo the buffer
count, and reports `resized = true` exactly when an explicit extent change
was requested (the platform-reported extent differs from the current one). -/
theorem headless_acquire_no_backend (s : VulkanSwapChain) (e : VkExtent2D)
    (hacq : s.mAcquired = false) (hhl : s.mHeadless = true) :
    (∀ r r' q q', acquire s e r r' = acquire s e q q') ∧
    ∃ s' b, (∀ r r', acquire s e r r' = .ok s' b) ∧
      s'.mCurrentSwapIndex = (s.mCurrentSwapIndex + 1) % s.mColors.length ∧
      (b = true ↔ e ≠ s.mExtent) := by
  by_cases he : e = s.mExtent
  · subst he
    refine ⟨fun r r' q q' => ?_, _, false,
      fun r r' => acquire_headless_same_extent s hacq hhl r r', rfl,
      by simp⟩
    rw [acquire_headless_same_extent s hacq hhl r r',
      acquire_headless_same_extent s hacq hhl q q']
  · refine ⟨fun r r' q q' => ?_, _, true,
      fun r r' => acquire_headless_resize s e hacq hhl he r r', rfl,
      by simp [he]⟩
    rw [acquire_headless_resize s e hacq hhl he r r',
      acquire_headless_resize s e hacq hhl he q q']

/-- Witness for C7: at a concrete headless idle state the acquire outcome is
the same for completely different backend responses. -/
theorem headless_acquire_no_backend_witness :
    acquire sampleIdle ⟨800, 600⟩ (.image 0) (.image 1) =
      acquire sampleIdle ⟨800, 600⟩ (.outOfDate ⟨5, 5⟩) (.outOfDate ⟨6, 6⟩) :=
  (headless_acquire_no_backend sampleIdle ⟨800, 600⟩ rfl rfl).1
    (.image 0) (.image 1) (.outOfDate ⟨5, 5⟩) (.outOfDate ⟨6, 6⟩)

/-- C8: within one swapchain generation the depth image is a single shared
handle: `getDepth` is unchanged by `markFirstRenderPass`, by `present`, and
by any non-resizing acquire (`resized = false`), while any resizing acquire
(`resized = true`) and any recreation replace it with a fresh handle — the
depth image is recreated only on resize. -/
theorem depth_handle_stable_within_generation (s : VulkanSwapChain) :
    getDepth (markFirstRenderPass s) = getDepth s ∧
    (∀ s', present s = .ok s' → getDepth s' = getDepth s) ∧
    (∀ e r r' s' b, s.mDepth.gen ≤ s.mGeneration →
      acquire s e r r' = .ok s' b →
        (b = false → getDepth s' = getDepth s) ∧
        (b = true → getDepth s' ≠ getDepth s)) ∧
    (∀ e, s.mDepth.gen ≤ s.mGeneration →
      getDepth (update s e) ≠ getDepth s) := by
  refine ⟨rfl, ?_, ?_, ?_⟩
  · intro s' h
    obtain ⟨_, rfl⟩ := present_ok_dest s s' h
    rfl
  · intro e r r' s' b hg ha
    cases hb : s.mAcquired with
    | true =>
        rw [acquire_fatal_of_acquired s e r r' hb] at ha
        exact absurd ha (by simp)
    | false =>
        unfold acquire at ha
        rw [hb] at ha
        simp only [Bool.false_eq_true, if_false] at ha
        split at ha
        · split at ha
          · cases ha
            exact ⟨by simp, fun _ => update_depth_ne s e hg⟩
          · cases ha
            exact ⟨fun _ => rfl, by simp⟩
        · split at ha
          · obtain ⟨idx, rfl, rfl, rfl⟩ := retryAcquire_ok_dest _ _ _ _ ha
            exact ⟨by simp, fun _ => update_depth_ne s e hg⟩
          · split at ha
            · cases ha
              exact ⟨fun _ => rfl, by simp⟩
            · rename_i newExtent
              obtain ⟨idx, rfl, rfl, rfl⟩ := retryAcquire_ok_dest _ _ _ _ ha
              exact ⟨by simp, fun _ => update_depth_ne s newExtent hg⟩
  · intro e hg
    exact update_depth_ne s e hg

/-- Witness for C8: recreation at a concrete state replaces the depth
handle. -/
theorem depth_handle_stable_within_generation_witness :
    getDepth (update sampleIdle ⟨1024, 768⟩) ≠ getDepth sampleIdle :=
  (depth_handle_stable_within_generation sampleIdle).2.2.2 ⟨1024, 768⟩
    (by decide)

/-- C10: `markFirstRenderPass` sets the first-render-pass flag to false and
changes no other observable state — the color image set, the depth handle,
the extent, the current index and the acquired flag are unchanged — and it
is idempotent: calling it twice equals calling it once. -/
theorem markFirstRenderPass_only_clears_flag (s : VulkanSwapChain) :
    isFirstRenderPass (markFirstRenderPass s) = false ∧
    (markFirstRenderPass s).mColors = s.mColors ∧
    getDepth (markFirstRenderPass s) = getDepth s ∧
    getExtent (markFirstRenderPass s) = getExtent s ∧
    (markFirstRenderPass s).mCurrentSwapIndex = s.mCurrentSwapIndex ∧
    (markFirstRenderPass s).mAcquired = s.mAcquired ∧
    getCurrentColor (markFirstRenderPass s) = getCurrentColor s ∧
    markFirstRenderPass (markFirstRenderPass s) = markFirstRenderPass s := by
  simp [markFirstRenderPass, isFirstRenderPass, getDepth, getExtent,
    getCurrentColor]

end VulkanSwapChainModel
